import Mathlib

/-!
Shallow embedding of the go-sdl2-dll binding layer (package sdl,
files sdl_windows.go, sdl_windows_386.go, sdl_windows_amd64.go).

Foreign memory and byte buffers are modelled as lists of byte values
(Nat), read little endian as on the x86 targets of the binding; machine
integers are Nat or Int with explicit reduction modulo 2 ^ w where Go
would truncate; Go nil pointers and nil slices are modelled as none;
a Go runtime panic is modelled as the none value of an Option result.
-/

namespace SDL2

/-- A byte buffer: foreign memory as a list of byte values. Reads past
the end of the list give 0. -/
abbrev Bytes := List Nat

/-- Read one byte at offset i. -/
def readU8 (b : Bytes) (i : Nat) : Nat := b.getD i 0

/-- Little endian 16 bit read. -/
def readU16 (b : Bytes) (i : Nat) : Nat := readU8 b i + 2 ^ 8 * readU8 b (i + 1)

/-- Little endian 32 bit read. -/
def readU32 (b : Bytes) (i : Nat) : Nat := readU16 b i + 2 ^ 16 * readU16 b (i + 2)

/-- Little endian 64 bit read. -/
def readU64 (b : Bytes) (i : Nat) : Nat := readU32 b i + 2 ^ 32 * readU32 b (i + 4)

/-- Reinterpret an unsigned w bit value as a two-complement signed
integer, as a pointer cast to a signed field does in the Go code. -/
def signed (w n : Nat) : Int :=
  if n % 2 ^ w < 2 ^ (w - 1) then ((n % 2 ^ w : Nat) : Int)
  else ((n % 2 ^ w : Nat) : Int) - 2 ^ w

/-- Little endian int16 read. -/
def readI16 (b : Bytes) (i : Nat) : Int := signed 16 (readU16 b i)

/-- Little endian int32 read. -/
def readI32 (b : Bytes) (i : Nat) : Int := signed 32 (readU32 b i)

/-- Little endian int64 read. -/
def readI64 (b : Bytes) (i : Nat) : Int := signed 64 (readU64 b i)

/-!
The narrow architecture word split and join paths, from
sdl_windows_386.go: RWops.WriteBE64 and RWops.WriteLE64 marshal a 64 bit
value as the two machine words a = uint32(value) and b = uint32(value
>> 32), while GetPerformanceCounter, GetPerformanceFrequency, RWops.Size,
RWops.ReadBE64 and RWops.ReadLE64 reassemble a 64 bit value from the two
returned words r1, r2 as uint64(r2)<<32 + uint64(r1).
-/

/-- The low machine word uint32(value) of a 64 bit value, as computed in
RWops.WriteBE64 in sdl_windows_386.go. -/
def lowWord (v : Nat) : Nat := v % 2 ^ 32

/-- The high machine word uint32(value >> 32), as computed in
RWops.WriteBE64 in sdl_windows_386.go. -/
def highWord (v : Nat) : Nat := (v / 2 ^ 32) % 2 ^ 32

/-- The reassembly uint64(r2)<<32 + uint64(r1) of a 64 bit value from two
machine words, as in GetPerformanceCounter in sdl_windows_386.go. Go
arithmetic on uint64 wraps modulo 2 ^ 64. -/
def joinWords (r1 r2 : Nat) : Nat := (2 ^ 32 * r2 + r1) % 2 ^ 64

/-- sdlToGoString from sdl_windows.go: for the null address it returns
the empty string without reading memory; otherwise it scans bytes from
address p until the first zero byte and returns the bytes before it.
Reading past the end of the modelled memory gives zero bytes, which is
where the source loop stops. -/
def sdlToGoString (mem : Bytes) (p : Nat) : Bytes :=
  if p = 0 then [] else (mem.drop p).takeWhile (fun b => b ≠ 0)

/-- A host side error value: either a native sourced message, wrapping
the decoded last error string, or the fixed local ErrInvalidParameters
value from sdl_windows.go. -/
inductive GoError where
  | native (msg : Bytes)
  | invalidParameters
deriving DecidableEq

/-- The native last error channel: the address that SDL_GetError returns
together with the foreign memory it points into. -/
structure NativeErrorState where
  errPtr : Nat
  mem : Bytes
deriving DecidableEq

/-- GetError from sdl_windows.go: nil unless the address returned by the
native SDL_GetError is non null and the string decoded from it is
nonempty. -/
def GetError (st : NativeErrorState) : Option GoError :=
  if st.errPtr ≠ 0 then
    let s := sdlToGoString st.mem st.errPtr
    if s ≠ [] then some (GoError.native s) else none
  else none

/-- errorFromInt from sdl_windows.go: GetError for a negative return
code, nil otherwise. -/
def errorFromInt (code : Int) (st : NativeErrorState) : Option GoError :=
  if code < 0 then GetError st else none

lemma takeWhile_drop_bytes (mem : Bytes) :
    ∀ (k p : Nat), (∀ i, i < k → readU8 mem (p + i) ≠ 0) → readU8 mem (p + k) = 0 →
      (mem.drop p).takeWhile (fun b => b ≠ 0) =
        (List.range k).map (fun i => readU8 mem (p + i)) := by
  intro k
  induction k with
  | zero =>
    intro p _ hz
    rw [List.range_zero, List.map_nil]
    by_cases hp : p < mem.length
    · have hb : mem[p] = 0 := by
        have hg := List.getD_eq_getElem mem 0 hp
        simp only [readU8, Nat.add_zero] at hz
        exact hg.symm.trans hz
      rw [List.drop_eq_getElem_cons hp, List.takeWhile_cons]
      simp [hb]
    · rw [List.drop_eq_nil_of_le (Nat.le_of_not_lt hp), List.takeWhile_nil]
  | succ k ih =>
    intro p hnz hz
    have h0 : readU8 mem p ≠ 0 := by
      have h := hnz 0 (Nat.succ_pos k)
      simpa using h
    have hp : p < mem.length := by
      by_contra hge
      apply h0
      simp only [readU8]
      exact List.getD_eq_default mem 0 (Nat.le_of_not_lt hge)
    have hget : mem[p] = readU8 mem p := by
      have hg := List.getD_eq_getElem mem 0 hp
      simp only [readU8]
      exact hg.symm
    have ihhyp1 : ∀ i, i < k → readU8 mem (p + 1 + i) ≠ 0 := by
      intro i hi
      have e : p + 1 + i = p + (i + 1) := by omega
      rw [e]
      exact hnz (i + 1) (by omega)
    have ihhyp2 : readU8 mem (p + 1 + k) = 0 := by
      have e : p + 1 + k = p + (k + 1) := by omega
      rw [e]
      exact hz
    have ih2 := ih (p + 1) ihhyp1 ihhyp2
    rw [List.drop_eq_getElem_cons hp, List.takeWhile_cons]
    rw [List.range_succ_eq_map, List.map_cons, List.map_map]
    have hmaps : (List.range k).map ((fun i => readU8 mem (p + i)) ∘ Nat.succ) =
        (List.range k).map (fun i => readU8 mem (p + 1 + i)) := by
      apply List.map_congr_left
      intro i _
      simp only [Function.comp_apply]
      have e : p + Nat.succ i = p + 1 + i := by omega
      rw [e]
    rw [hmaps, ← ih2]
    simp [hget, h0]

/-- Claim C8: sdlToGoString returns, for a non null address p followed by
k nonzero bytes and then a zero byte, exactly the string of those k
bytes; for the null address it returns the empty string without reading
memory. -/
theorem sdlToGoString_spec :
    (∀ mem : Bytes, sdlToGoString mem 0 = []) ∧
    (∀ (mem : Bytes) (p k : Nat), p ≠ 0 →
      (∀ i, i < k → readU8 mem (p + i) ≠ 0) → readU8 mem (p + k) = 0 →
      sdlToGoString mem p = (List.range k).map (fun i => readU8 mem (p + i))) := by
  constructor
  · intro mem
    simp [sdlToGoString]
  · intro mem p k hp hnz hz
    rw [sdlToGoString, if_neg hp]
    exact takeWhile_drop_bytes mem k p hnz hz

/-- Witness for claim C8: memory holding the bytes 65, 66 at the non
null address 1, terminated by a zero byte, decodes to the string of
those two bytes. -/
theorem sdlToGoString_spec_witness :
    sdlToGoString [7, 65, 66, 0] 1 = [65, 66] := by
  rw [sdlToGoString_spec.2 [7, 65, 66, 0] 1 2 (by decide) (by decide) (by decide)]
  decide

/-- Claim C3: splitting any 64 bit value into the low machine word
uint32(v) and the high machine word uint32(v >> 32), as the narrow
architecture write path does, and reassembling them as the narrow
architecture read path does, reproduces the value exactly. -/
theorem joinWords_lowWord_highWord (v : Nat) (h : v < 2 ^ 64) :
    joinWords (lowWord v) (highWord v) = v := by
  have h32 : v / 2 ^ 32 < 2 ^ 32 := by
    apply Nat.div_lt_of_lt_mul
    calc v < 2 ^ 64 := h
    _ = 2 ^ 32 * 2 ^ 32 := by norm_num
  simp only [joinWords, lowWord, highWord, Nat.mod_eq_of_lt h32]
  rw [Nat.div_add_mod, Nat.mod_eq_of_lt h]

/-- Witness for claim C3: the all ones value (-1 as uint64) survives the
split and join round trip. -/
theorem joinWords_lowWord_highWord_witness :
    joinWords (lowWord (2 ^ 64 - 1)) (highWord (2 ^ 64 - 1)) = 2 ^ 64 - 1 :=
  joinWords_lowWord_highWord (2 ^ 64 - 1) (by norm_num)

/-- Counterexample for claim C2: with an empty native last error channel
(null error address), errorFromInt of the negative code -1 returns nil,
not a non nil error whose message is the last error text as the claim
states. -/
theorem errorFromInt_neg_nil_counterexample :
    errorFromInt (-1) ⟨0, []⟩ = none := by decide

/-- Claim C2 amended: for a negative code errorFromInt returns exactly
what GetError reads from the native last error channel at that moment
(which is nil when no message is set), for a non negative code it
returns nil; GetError returns nil exactly when the native error address
is null or the decoded message is empty, and otherwise an error wrapping
the decoded message. -/
theorem errorFromInt_GetError_spec :
    (∀ (code : Int) (st : NativeErrorState), code < 0 →
      errorFromInt code st = GetError st) ∧
    (∀ (code : Int) (st : NativeErrorState), 0 ≤ code →
      errorFromInt code st = none) ∧
    (∀ st : NativeErrorState,
      GetError st = none ↔ (st.errPtr = 0 ∨ sdlToGoString st.mem st.errPtr = [])) ∧
    (∀ st : NativeErrorState, st.errPtr ≠ 0 → sdlToGoString st.mem st.errPtr ≠ [] →
      GetError st = some (GoError.native (sdlToGoString st.mem st.errPtr))) := by
  refine ⟨?_, ?_, ?_, ?_⟩
  · intro code st h
    simp [errorFromInt, h]
  · intro code st h
    simp [errorFromInt, Int.not_lt.mpr h]
  · intro st
    by_cases h1 : st.errPtr = 0
    · simp [GetError, h1]
    · by_cases h2 : sdlToGoString st.mem st.errPtr = []
      · simp [GetError, h1, h2]
      · simp [GetError, h1, h2]
  · intro st h1 h2
    simp [GetError, h1, h2]

/-- Witness for the amended claim C2: a negative code with a one byte
message set in the native channel yields exactly the GetError result. -/
theorem errorFromInt_GetError_spec_witness :
    errorFromInt (-1) ⟨1, [0, 65, 0]⟩ = GetError ⟨1, [0, 65, 0]⟩ :=
  errorFromInt_GetError_spec.1 (-1) ⟨1, [0, 65, 0]⟩ (by decide)

/-!
RWops surface functions. Each embedding takes the machine word returned
by the corresponding native routine as an explicit argument (the native
library is an opaque collaborator) together with the native last error
channel, and produces the host results plus a Bool recording whether the
native routine was invoked at all.
-/

/-- RWFromMem from sdl_windows.go: an empty slice short circuits to the
fixed local ErrInvalidParameters error with no native call; otherwise the
native SDL_RWFromMem pointer retPtr is interpreted, with the null pointer
as the failure sentinel. Result: (handle, error, native called). -/
def RWFromMem (mem : Bytes) (retPtr : Nat) (st : NativeErrorState) :
    Option Nat × Option GoError × Bool :=
  if mem.length = 0 then (none, some GoError.invalidParameters, false)
  else if retPtr = 0 then (none, GetError st, true)
  else (some retPtr, none, true)

/-- RWops.Seek from sdl_windows.go, the wide architecture build: rwops is
the receiver (none models a nil pointer), retWord is the uintptr machine
word the native seek routine returns. The source test ret < 0 compares
the unsigned uintptr against zero, mirrored here by the Nat comparison;
int64(ret) reinterprets the 64 bit word as signed. Result: (position,
error, native called). -/
def Seek_amd64 (rwops : Option Unit) (offset : Int) (whence : Nat)
    (retWord : Nat) (st : NativeErrorState) : Int × Option GoError × Bool :=
  match rwops with
  | none => (-1, some GoError.invalidParameters, false)
  | some _ =>
    let ret : Nat := retWord % 2 ^ 64
    if ret < 0 then (signed 64 ret, GetError st, true)
    else (signed 64 ret, none, true)

/-- RWops.Seek from sdl_windows_386.go, the narrow architecture build:
the 64 bit offset is split into the machine words a and b for the call,
the returned uintptr r1 is a 32 bit word, the source test ret < 0 again
compares an unsigned word against zero, and int64(ret) zero extends the
32 bit word. Result: (position, error, native called). -/
def Seek_386 (rwops : Option Unit) (offset : Int) (whence : Nat)
    (r1 : Nat) (st : NativeErrorState) : Int × Option GoError × Bool :=
  match rwops with
  | none => (-1, some GoError.invalidParameters, false)
  | some _ =>
    let a : Nat := lowWord (offset % 2 ^ 64).toNat
    let b : Nat := highWord (offset % 2 ^ 64).toNat
    let ret : Nat := r1 % 2 ^ 32
    if ret < 0 then ((ret : Int), GetError st, true)
    else ((ret : Int), none, true)

/-- RWops.Read2 from sdl_windows.go: a nil receiver or nil buffer short
circuits to ErrInvalidParameters with no native call; a non nil empty
buffer reaches the indexing of its first element and panics (none);
otherwise the native word retWord is interpreted, with 0 as the failure
sentinel. Result: some (count, error, native called) or none for the
panic. -/
def Read2 (rwops : Option Unit) (buf : Option Bytes) (size maxnum : Nat)
    (retWord : Nat) (st : NativeErrorState) :
    Option (Int × Option GoError × Bool) :=
  match rwops, buf with
  | none, _ => some (0, some GoError.invalidParameters, false)
  | some _, none => some (0, some GoError.invalidParameters, false)
  | some _, some [] => none
  | some _, some (_ :: _) =>
    let ret : Nat := retWord % 2 ^ 64
    if ret = 0 then some (signed 64 ret, GetError st, true)
    else some (signed 64 ret, none, true)

/-- RWops.Write2 from sdl_windows.go: the same guards as Read2, then the
native word is interpreted, querying the last error when fewer than num
objects were written. Result: some (count, error, native called) or none
for the panic on a non nil empty buffer. -/
def Write2 (rwops : Option Unit) (buf : Option Bytes) (size num : Nat)
    (retWord : Nat) (st : NativeErrorState) :
    Option (Int × Option GoError × Bool) :=
  match rwops, buf with
  | none, _ => some (0, some GoError.invalidParameters, false)
  | some _, none => some (0, some GoError.invalidParameters, false)
  | some _, some [] => none
  | some _, some (_ :: _) =>
    let n : Int := signed 64 (retWord % 2 ^ 64)
    if n < signed 64 (num % 2 ^ 64) then some (n, GetError st, true)
    else some (n, none, true)

/-- AddEventWatchFunc from sdl_windows.go: an acknowledged TODO stub that
returns handle 0 unconditionally; the filter function and userdata are
abstracted as opaque identifiers. Result: (handle, native called). -/
def AddEventWatchFunc (filterFunc userdata : Nat) : Nat × Bool :=
  (0, false)

/-- RWops.LoadFileRW from sdl_windows.go: an acknowledged TODO stub that
returns nil data and size 0 unconditionally without calling the native
entry point. Result: (data, size, native called). -/
def LoadFileRW (src : Option Unit) (freesrc : Bool) :
    Option Bytes × Nat × Bool :=
  (none, 0, false)

/-- DequeueAudio from sdl_windows.go: the call takes the address of the
first element of data unconditionally, so an empty slice panics (none);
otherwise the native word retWord is interpreted, with any nonzero value
as the failure sentinel. Result: some (error, native called) or none for
the panic. -/
def DequeueAudio (dev : Nat) (data : Bytes) (retWord : Nat)
    (st : NativeErrorState) : Option (Option GoError × Bool) :=
  match data with
  | [] => none
  | _ :: _ =>
    if retWord ≠ 0 then some (GetError st, true) else some (none, true)

/-- FreeWAV from sdl_windows.go: takes the address of the first element
of audioBuf unconditionally, so an empty slice panics (none). The Bool
result records that the native routine was invoked. -/
def FreeWAV (audioBuf : Bytes) : Option Bool :=
  match audioBuf with
  | [] => none
  | _ :: _ => some true

/-- Main from sdl_windows.go: the body of the function is an empty TODO
stub, so the supplied closure is never invoked. A closure is modelled as
a state transformer and Main returns the state unchanged. -/
def Main {σ : Type} (m : σ → σ) (s : σ) : σ := s

/-- The package level callInMain variable from sdl_windows.go in its
default state, before Main has installed anything: it panics (none)
instead of running the closure. -/
def callInMainDefault {σ : Type} (f : σ → σ) (s : σ) : Option σ := none

/-- Do from sdl_windows.go: simply invokes callInMain, which before Main
has run is the panicking default. -/
def Do {σ : Type} (f : σ → σ) (s : σ) : Option σ := callInMainDefault f s

/-- Claim C4 (code bug evidence): when the native seek routine returns
the all ones word, the two-complement value -1 and hence a documented
failure, Seek on the wide architecture returns that value with a nil
error even though GetError holds a message, because the source compares
the unsigned uintptr return against zero; the narrow architecture build
additionally zero extends the low return word, so the failure value is
not even surfaced as negative. -/
theorem seek_negative_return_yields_no_error :
    Seek_amd64 (some ()) 0 0 (2 ^ 64 - 1) ⟨1, [0, 69, 0]⟩ = (-1, none, true) ∧
    Seek_386 (some ()) 0 0 (2 ^ 32 - 1) ⟨1, [0, 69, 0]⟩ =
      ((2 : Int) ^ 32 - 1, none, true) ∧
    GetError ⟨1, [0, 69, 0]⟩ = some (GoError.native [69]) := by
  refine ⟨?_, ?_, ?_⟩ <;> decide

/-- Claim C5: RWFromMem on an empty slice, and Seek, Read2 and Write2 on
a nil receiver (or nil buffer for Read2 and Write2), return the fixed
local ErrInvalidParameters value with a zero or -1 result and perform no
native call. -/
theorem local_precondition_errors :
    (∀ (retPtr : Nat) (st : NativeErrorState),
      RWFromMem [] retPtr st = (none, some GoError.invalidParameters, false)) ∧
    (∀ (offset : Int) (whence retWord : Nat) (st : NativeErrorState),
      Seek_amd64 none offset whence retWord st =
        (-1, some GoError.invalidParameters, false)) ∧
    (∀ (offset : Int) (whence r1 : Nat) (st : NativeErrorState),
      Seek_386 none offset whence r1 st =
        (-1, some GoError.invalidParameters, false)) ∧
    (∀ (rwops : Option Unit) (buf : Option Bytes) (size maxnum retWord : Nat)
      (st : NativeErrorState), rwops = none ∨ buf = none →
      Read2 rwops buf size maxnum retWord st =
        some (0, some GoError.invalidParameters, false)) ∧
    (∀ (rwops : Option Unit) (buf : Option Bytes) (size num retWord : Nat)
      (st : NativeErrorState), rwops = none ∨ buf = none →
      Write2 rwops buf size num retWord st =
        some (0, some GoError.invalidParameters, false)) := by
  refine ⟨fun retPtr st => rfl, fun offset whence retWord st => rfl,
    fun offset whence r1 st => rfl, ?_, ?_⟩
  · intro rwops buf size maxnum retWord st h
    rcases h with h | h
    · subst h; rfl
    · subst h
      cases rwops with
      | none => rfl
      | some u => rfl
  · intro rwops buf size num retWord st h
    rcases h with h | h
    · subst h; rfl
    · subst h
      cases rwops with
      | none => rfl
      | some u => rfl

/-- Witness for claim C5: Read2 with a nil receiver and a concrete non
nil buffer returns the fixed local error without a native call. -/
theorem local_precondition_errors_witness :
    Read2 none (some [1]) 1 1 7 ⟨0, []⟩ =
      some (0, some GoError.invalidParameters, false) :=
  local_precondition_errors.2.2.2.1 none (some [1]) 1 1 7 ⟨0, []⟩ (Or.inl rfl)

/-- Claim C7: the unimplemented stubs AddEventWatchFunc and
RWops.LoadFileRW return zero valued results unconditionally and never
invoke a native entry point. -/
theorem unimplemented_stubs_return_zero :
    (∀ filterFunc userdata : Nat,
      AddEventWatchFunc filterFunc userdata = (0, false)) ∧
    (∀ (src : Option Unit) (freesrc : Bool),
      LoadFileRW src freesrc = (none, 0, false)) :=
  ⟨fun _ _ => rfl, fun _ _ => rfl⟩

/-- Claim C9: DequeueAudio with an empty data slice reaches the
unconditional indexing of the first element and panics (none) instead of
short circuiting or returning an error, and so does FreeWAV; with a
nonempty slice DequeueAudio proceeds normally. -/
theorem empty_input_panics :
    (∀ (dev retWord : Nat) (st : NativeErrorState),
      DequeueAudio dev [] retWord st = none) ∧
    FreeWAV [] = none ∧
    (∀ (dev b retWord : Nat) (rest : Bytes) (st : NativeErrorState),
      DequeueAudio dev (b :: rest) retWord st ≠ none) := by
  refine ⟨fun dev retWord st => rfl, rfl, ?_⟩
  intro dev b retWord rest st
  simp only [DequeueAudio]
  by_cases h : retWord ≠ 0 <;> simp [h]

/-- Witness for claim C9: DequeueAudio on a concrete device with the
empty slice panics (none). -/
theorem empty_input_panics_witness :
    DequeueAudio 0 [] 0 ⟨0, []⟩ = none :=
  empty_input_panics.1 0 0 ⟨0, []⟩

/-- Claim C6 (code bug evidence): Main is an empty TODO stub, so the
host supplied closure never runs and the state is unchanged, contrary to
the documented contract that Main runs the closure as the permanent main
loop; Do before Main panics (none) as the claim states. -/
theorem main_stub_does_not_run_closure :
    Main (fun n : Nat => n + 1) 0 = 0 ∧
    Main (fun n : Nat => n + 1) 0 ≠ 1 ∧
    Do (fun n : Nat => n + 1) 0 = none := by
  refine ⟨rfl, ?_, rfl⟩
  decide

/-!
The event watch registry from sdl_windows.go: the package level map
eventWatches from EventWatchHandle to eventFilterCallbackContext and the
counter lastEventWatchHandle, mutated by newEventFilterCallbackContext
(called from AddEventWatch and FilterEvents) and by DelEventWatch. The Go
map is modelled as an association list; the host side filter and
userdata values are abstracted as opaque identifiers.
-/

/-- eventFilterCallbackContext from sdl_windows.go. -/
structure EventFilterCallbackContext where
  filter : Nat
  handle : Nat
  userdata : Nat
deriving DecidableEq

/-- The eventWatches map, as an association list from handle to
context. -/
abbrev WatchMap := List (Nat × EventFilterCallbackContext)

/-- The registry state: the eventWatches map and the
lastEventWatchHandle counter. -/
structure WatchState where
  eventWatches : WatchMap
  lastEventWatchHandle : Nat
deriving DecidableEq

/-- Go map read eventWatches[h]. -/
def mapLookup (m : WatchMap) (h : Nat) : Option EventFilterCallbackContext :=
  (m.find? (fun p => p.1 == h)).map Prod.snd

/-- Go map write eventWatches[h] = c: overwrites an existing entry for
the key, otherwise adds a new one. -/
def mapInsert (m : WatchMap) (h : Nat) (c : EventFilterCallbackContext) :
    WatchMap :=
  if m.any (fun p => p.1 == h) then
    m.map (fun p => if p.1 == h then (h, c) else p)
  else (h, c) :: m

/-- Go map delete(eventWatches, h). -/
def mapDelete (m : WatchMap) (h : Nat) : WatchMap :=
  m.filter (fun p => p.1 != h)

/-- The scan loop of newEventFilterCallbackContext: starting at the
counter value, advance until a handle not present in the map is found.
The source loop is unbounded and terminates because the map is finite; a
fuel of one more than the map size is always enough, as proved below. -/
def firstFreeFrom (m : WatchMap) : Nat → Nat → Nat
  | 0, start => start
  | fuel + 1, start =>
    if mapLookup m start = none then start else firstFreeFrom m fuel (start + 1)

/-- The handle chosen by the scan loop of newEventFilterCallbackContext. -/
def firstFree (m : WatchMap) (start : Nat) : Nat :=
  firstFreeFrom m (m.length + 1) start

/-- newEventFilterCallbackContext from sdl_windows.go: find the next
free handle starting at lastEventWatchHandle, store the new context
under it, and leave the counter one past the used handle. -/
def newEventFilterCallbackContext (s : WatchState) (filter userdata : Nat) :
    EventFilterCallbackContext × WatchState :=
  let h := firstFree s.eventWatches s.lastEventWatchHandle
  let c : EventFilterCallbackContext := ⟨filter, h, userdata⟩
  (c, ⟨mapInsert s.eventWatches h c, h + 1⟩)

/-- AddEventWatch from sdl_windows.go: registers a context and returns
its handle (the native call does not touch the host registry). -/
def AddEventWatch (s : WatchState) (filter userdata : Nat) :
    Nat × WatchState :=
  let r := newEventFilterCallbackContext s filter userdata
  (r.1.handle, r.2)

/-- FilterEvents from sdl_windows.go: registers a context exactly like
AddEventWatch, discarding the handle. -/
def FilterEvents (s : WatchState) (filter userdata : Nat) : WatchState :=
  (newEventFilterCallbackContext s filter userdata).2

/-- DelEventWatch from sdl_windows.go: look the handle up; if absent do
nothing, otherwise delete the entry under the handle stored in the found
context. -/
def DelEventWatch (s : WatchState) (h : Nat) : WatchState :=
  match mapLookup s.eventWatches h with
  | none => s
  | some c => ⟨mapDelete s.eventWatches c.handle, s.lastEventWatchHandle⟩

/-- Registry states reachable from the package start state (empty map,
counter zero) by AddEventWatch, FilterEvents and DelEventWatch calls. -/
inductive Reachable : WatchState → Prop where
  | init : Reachable ⟨[], 0⟩
  | add (s : WatchState) (filter userdata : Nat) :
      Reachable s → Reachable (AddEventWatch s filter userdata).2
  | filterEvents (s : WatchState) (filter userdata : Nat) :
      Reachable s → Reachable (FilterEvents s filter userdata)
  | del (s : WatchState) (h : Nat) :
      Reachable s → Reachable (DelEventWatch s h)

/-- Registry invariant: the stored keys are distinct and every context
records the handle it is stored under. -/
def WatchInv (m : WatchMap) : Prop :=
  (m.map Prod.fst).Nodup ∧ ∀ p ∈ m, p.2.handle = p.1

lemma mapLookup_eq_none_iff (m : WatchMap) (h : Nat) :
    mapLookup m h = none ↔ h ∉ m.map Prod.fst := by
  simp only [mapLookup, Option.map_eq_none', List.find?_eq_none, beq_iff_eq,
    List.mem_map, not_exists]
  constructor
  · intro h1 p hcontra
    exact h1 p hcontra.1 hcontra.2
  · intro h1 p hp e
    exact h1 p ⟨hp, e⟩

lemma mapLookup_mem (m : WatchMap) (h : Nat) (c : EventFilterCallbackContext)
    (hl : mapLookup m h = some c) : (h, c) ∈ m := by
  unfold mapLookup at hl
  rcases hf : m.find? (fun p => p.1 == h) with _ | p
  · rw [hf] at hl
    cases hl
  · rw [hf, Option.map_some'] at hl
    obtain ⟨p1, p2⟩ := p
    have hpm := List.mem_of_find?_eq_some hf
    have hph : p1 = h := by
      have hs := List.find?_some hf
      simpa using hs
    have hpc : p2 = c := by
      injection hl
    rw [← hph, ← hpc]
    exact hpm

lemma exists_free_handle (m : WatchMap) (hnd : (m.map Prod.fst).Nodup)
    (start : Nat) :
    ∃ i, i ≤ m.length ∧ mapLookup m (start + i) = none := by
  by_contra hcon
  push_neg at hcon
  have hmem : ∀ i, i ≤ m.length → (start + i) ∈ m.map Prod.fst := by
    intro i hi
    by_contra hm
    exact hcon i hi ((mapLookup_eq_none_iff m (start + i)).mpr hm)
  have hsub : ((List.range (m.length + 1)).map (fun i => start + i)) ⊆
      m.map Prod.fst := by
    intro x hx
    rcases List.mem_map.mp hx with ⟨i, hi, rfl⟩
    exact hmem i (by simpa [Nat.lt_succ_iff] using List.mem_range.mp hi)
  have hinj : Function.Injective (fun i : Nat => start + i) := by
    intro a b hab
    simpa using hab
  have hnod : ((List.range (m.length + 1)).map (fun i => start + i)).Nodup :=
    List.Nodup.map hinj (List.nodup_range (m.length + 1))
  have hle := (hnod.subperm hsub).length_le
  simp only [List.length_map, List.length_range] at hle
  omega

lemma firstFreeFrom_spec (m : WatchMap) :
    ∀ (fuel start : Nat), (∃ i, i < fuel ∧ mapLookup m (start + i) = none) →
      mapLookup m (firstFreeFrom m fuel start) = none := by
  intro fuel
  induction fuel with
  | zero =>
    intro start h
    rcases h with ⟨i, hi, _⟩
    omega
  | succ fuel ih =>
    intro start h
    rw [firstFreeFrom]
    by_cases h0 : mapLookup m start = none
    · simp [h0]
    · rw [if_neg h0]
      apply ih
      rcases h with ⟨i, hi, hfree⟩
      cases i with
      | zero =>
        exact absurd hfree (by simpa using h0)
      | succ j =>
        refine ⟨j, by omega, ?_⟩
        have e : start + 1 + j = start + (j + 1) := by omega
        rw [e]
        exact hfree

lemma firstFree_spec (m : WatchMap) (hnd : (m.map Prod.fst).Nodup)
    (start : Nat) : mapLookup m (firstFree m start) = none := by
  rcases exists_free_handle m hnd start with ⟨i, hi, hfree⟩
  exact firstFreeFrom_spec m (m.length + 1) start ⟨i, by omega, hfree⟩

lemma mapInsert_fresh (m : WatchMap) (h : Nat)
    (c : EventFilterCallbackContext) (hfree : mapLookup m h = none) :
    mapInsert m h c = (h, c) :: m := by
  unfold mapInsert
  rw [if_neg]
  rw [mapLookup_eq_none_iff] at hfree
  intro hcontra
  rcases List.any_eq_true.mp hcontra with ⟨p, hp, hph⟩
  exact hfree (List.mem_map.mpr ⟨p, hp, by simpa using hph⟩)

lemma mapLookup_cons (h h2 : Nat) (c : EventFilterCallbackContext)
    (m : WatchMap) :
    mapLookup ((h, c) :: m) h2 =
      if h = h2 then some c else mapLookup m h2 := by
  by_cases e : h = h2
  · unfold mapLookup
    rw [List.find?_cons_of_pos _ (by simpa using e)]
    simp [e]
  · unfold mapLookup
    rw [List.find?_cons_of_neg _ (by simpa using e)]
    simp [e]

lemma mapLookup_delete (m : WatchMap) (h h2 : Nat) :
    mapLookup (mapDelete m h) h2 =
      if h2 = h then none else mapLookup m h2 := by
  induction m with
  | nil =>
    by_cases e : h2 = h <;> simp [mapDelete, mapLookup, e]
  | cons p m ih =>
    obtain ⟨ph, pc⟩ := p
    by_cases e1 : ph = h
    · have hdel : mapDelete ((ph, pc) :: m) h = mapDelete m h := by
        simp [mapDelete, List.filter_cons, e1]
      rw [hdel, ih]
      by_cases e2 : h2 = h
      · simp [e2]
      · rw [if_neg e2, if_neg e2, mapLookup_cons,
          if_neg (show ¬ ph = h2 by omega)]
    · have hdel : mapDelete ((ph, pc) :: m) h = (ph, pc) :: mapDelete m h := by
        simp [mapDelete, List.filter_cons, e1]
      rw [hdel, mapLookup_cons, mapLookup_cons]
      by_cases e2 : ph = h2
      · have e3 : ¬ h2 = h := by omega
        simp [e2, e3]
      · rw [if_neg e2, if_neg e2, ih]

lemma watchInv_register (s : WatchState) (hinv : WatchInv s.eventWatches)
    (filter userdata : Nat) :
    WatchInv (newEventFilterCallbackContext s filter userdata).2.eventWatches := by
  have hfree := firstFree_spec s.eventWatches hinv.1 s.lastEventWatchHandle
  simp only [newEventFilterCallbackContext,
    mapInsert_fresh _ _ _ hfree]
  constructor
  · rw [List.map_cons]
    refine List.Nodup.cons ?_ hinv.1
    exact (mapLookup_eq_none_iff _ _).mp hfree
  · intro p hp
    rcases List.mem_cons.mp hp with h | h
    · rw [h]
    · exact hinv.2 p h

lemma watchInv_delete (m : WatchMap) (hinv : WatchInv m) (h : Nat) :
    WatchInv (mapDelete m h) := by
  have hsub : (mapDelete m h).Sublist m := List.filter_sublist m
  constructor
  · exact (hsub.map Prod.fst).nodup hinv.1
  · intro p hp
    exact hinv.2 p (List.mem_of_mem_filter hp)

lemma reachable_watchInv (s : WatchState) (hr : Reachable s) :
    WatchInv s.eventWatches := by
  induction hr with
  | init =>
    exact ⟨List.nodup_nil, by intro p hp; cases hp⟩
  | add s filter userdata hr ih =>
    exact watchInv_register s ih filter userdata
  | filterEvents s filter userdata hr ih =>
    exact watchInv_register s ih filter userdata
  | del s h hr ih =>
    cases hl : mapLookup s.eventWatches h with
    | none =>
      simpa [DelEventWatch, hl] using ih
    | some c =>
      have : (DelEventWatch s h).eventWatches =
          mapDelete s.eventWatches c.handle := by
        simp [DelEventWatch, hl]
      rw [this]
      exact watchInv_delete _ ih _

/-- Claim C10: in every reachable registry state, every stored context
records the handle it is stored under; a new registration (by
AddEventWatch or, identically, FilterEvents) is stored under a handle
not previously present and leaves every other handle unchanged; and
DelEventWatch removes exactly the entry of the given handle, leaving all
other entries unchanged. -/
theorem event_watch_registry_spec :
    ∀ s : WatchState, Reachable s →
      ((∀ (h : Nat) (c : EventFilterCallbackContext),
          mapLookup s.eventWatches h = some c → c.handle = h) ∧
       (∀ filter userdata : Nat,
          mapLookup s.eventWatches (AddEventWatch s filter userdata).1 = none ∧
          mapLookup (AddEventWatch s filter userdata).2.eventWatches
              (AddEventWatch s filter userdata).1 =
            some ⟨filter, (AddEventWatch s filter userdata).1, userdata⟩ ∧
          (∀ h : Nat, h ≠ (AddEventWatch s filter userdata).1 →
            mapLookup (AddEventWatch s filter userdata).2.eventWatches h =
              mapLookup s.eventWatches h)) ∧
       (∀ h : Nat,
          mapLookup (DelEventWatch s h).eventWatches h = none ∧
          (∀ h2 : Nat, h2 ≠ h →
            mapLookup (DelEventWatch s h).eventWatches h2 =
              mapLookup s.eventWatches h2))) := by
  intro s hr
  have hinv := reachable_watchInv s hr
  have hhandles : ∀ (h : Nat) (c : EventFilterCallbackContext),
      mapLookup s.eventWatches h = some c → c.handle = h := by
    intro h c hl
    exact hinv.2 (h, c) (mapLookup_mem _ _ _ hl)
  refine ⟨hhandles, ?_, ?_⟩
  · intro filter userdata
    have hfree := firstFree_spec s.eventWatches hinv.1 s.lastEventWatchHandle
    have hhd : (AddEventWatch s filter userdata).1 =
        firstFree s.eventWatches s.lastEventWatchHandle := rfl
    have hmap : (AddEventWatch s filter userdata).2.eventWatches =
        (firstFree s.eventWatches s.lastEventWatchHandle,
          (⟨filter, firstFree s.eventWatches s.lastEventWatchHandle,
            userdata⟩ : EventFilterCallbackContext)) :: s.eventWatches := by
      simp only [AddEventWatch, newEventFilterCallbackContext]
      exact mapInsert_fresh _ _ _ hfree
    refine ⟨by rw [hhd]; exact hfree, ?_, ?_⟩
    · rw [hhd, hmap, mapLookup_cons, if_pos rfl]
    · intro h hne
      rw [hhd] at hne
      rw [hmap, mapLookup_cons, if_neg (fun e => hne e.symm)]
  · intro h
    cases hl : mapLookup s.eventWatches h with
    | none =>
      have hs : DelEventWatch s h = s := by
        simp [DelEventWatch, hl]
      exact ⟨by rw [hs]; exact hl, by intro h2 _; rw [hs]⟩
    | some c =>
      have hch : c.handle = h := hhandles h c hl
      have hdw : (DelEventWatch s h).eventWatches =
          mapDelete s.eventWatches h := by
        simp [DelEventWatch, hl, hch]
      refine ⟨?_, ?_⟩
      · rw [hdw, mapLookup_delete, if_pos rfl]
      · intro h2 hne
        rw [hdw, mapLookup_delete, if_neg hne]

/-- Witness for claim C10: in the reachable start state, deleting handle
0 leaves no entry for handle 0. -/
theorem event_watch_registry_spec_witness :
    mapLookup (DelEventWatch ⟨[], 0⟩ 0).eventWatches 0 = none :=
  ((event_watch_registry_spec ⟨[], 0⟩ Reachable.init).2.2 0).1

/-!
The event decoder goEvent from sdl_windows.go. An event record is a
fixed size byte buffer tagged by its leading 32 bit type code; goEvent
reinterprets it as one of the concrete event shapes below according to
the tag. Pointer casts in the source become little endian field reads at
the offsets of the Go struct layouts; the two target architectures
differ only in the width of pointer sized fields, captured by Arch.
Float fields are exposed as their raw 32 bit patterns, since the cast in
the source is a bit for bit reinterpretation of the same memory.
-/

/-- The target word size: pointer (and Go int) width in bytes, 4 on the
narrow architecture and 8 on the wide one. -/
structure Arch where
  ptrBytes : Nat
deriving DecidableEq

/-- The windows,386 build target. -/
def arch386 : Arch := ⟨4⟩

/-- The windows,amd64 build target. -/
def archAmd64 : Arch := ⟨8⟩

/-- Read a pointer sized unsigned field. -/
def readPtr (a : Arch) (b : Bytes) (i : Nat) : Nat :=
  if a.ptrBytes = 8 then readU64 b i else readU32 b i

/-- Read a Go int field (word sized, signed). -/
def readIntWord (a : Arch) (b : Bytes) (i : Nat) : Int :=
  if a.ptrBytes = 8 then readI64 b i else readI32 b i

/-- Recognized event type tags, from the event type enumeration in
sdl_windows.go. -/
def QUIT : Nat := 0x100

def WINDOWEVENT : Nat := 0x200

def SYSWMEVENT : Nat := 0x200 + 1

def KEYDOWN : Nat := 0x300

def KEYUP : Nat := 0x300 + 1

def TEXTEDITING : Nat := 0x300 + 2

def TEXTINPUT : Nat := 0x300 + 3

def MOUSEMOTION : Nat := 0x400

def MOUSEBUTTONDOWN : Nat := 0x400 + 1

def MOUSEBUTTONUP : Nat := 0x400 + 2

def MOUSEWHEEL : Nat := 0x400 + 3

def JOYAXISMOTION : Nat := 0x600

def JOYBALLMOTION : Nat := 0x600 + 1

def JOYHATMOTION : Nat := 0x600 + 2

def JOYBUTTONDOWN : Nat := 0x600 + 3

def JOYBUTTONUP : Nat := 0x600 + 4

def JOYDEVICEADDED : Nat := 0x600 + 5

def JOYDEVICEREMOVED : Nat := 0x600 + 6

def CONTROLLERAXISMOTION : Nat := 0x650

def CONTROLLERBUTTONDOWN : Nat := 0x650 + 1

def CONTROLLERBUTTONUP : Nat := 0x650 + 2

def CONTROLLERDEVICEADDED : Nat := 0x650 + 3

def CONTROLLERDEVICEREMOVED : Nat := 0x650 + 4

def CONTROLLERDEVICEREMAPPED : Nat := 0x650 + 5

def FINGERDOWN : Nat := 0x700

def FINGERUP : Nat := 0x700 + 1

def FINGERMOTION : Nat := 0x700 + 3

def DOLLARGESTURE : Nat := 0x800

def DOLLARRECORD : Nat := 0x800 + 1

def MULTIGESTURE : Nat := 0x800 + 2

def CLIPBOARDUPDATE : Nat := 0x900

def DROPFILE : Nat := 0x1000

def DROPTEXT : Nat := 0x1000 + 1

def DROPBEGIN : Nat := 0x1000 + 2

def DROPCOMPLETE : Nat := 0x1000 + 3

def AUDIODEVICEADDED : Nat := 0x1100

def AUDIODEVICEREMOVED : Nat := 0x1100 + 1

def SENSORUPDATE : Nat := 0x1200

def RENDER_TARGETS_RESET : Nat := 0x2000

def RENDER_DEVICE_RESET : Nat := 0x2000 + 1

def USEREVENT : Nat := 0x8000

/-- The size of the text array in TextEditingEvent and TextInputEvent. -/
def TEXTINPUTEVENT_TEXT_SIZE : Nat := 32

/-- Keysym from sdl_windows.go: Scancode uint32, Sym int32 (Keycode),
Mod uint16, plus the unexported unused uint32 field. -/
structure Keysym where
  scancode : Nat
  sym : Int
  mod : Nat
  unused : Nat
deriving DecidableEq

/-- The closed set of decoded event shapes, one constructor per Go event
struct that goEvent can return, plus the generic CommonEvent fallback
which carries exactly the tag and the timestamp. Unsigned fields are
Nat, signed fields are Int, float fields carry their raw 32 bit
patterns. -/
inductive Event where
  | window (typ timestamp windowID ev : Nat) (data1 data2 : Int)
  | sysWM (typ timestamp msg : Nat)
  | keyboard (typ timestamp windowID state repeat_ : Nat) (keysym : Keysym)
  | textEditing (typ timestamp windowID : Nat) (text : Bytes)
      (start length : Int)
  | textInput (typ timestamp windowID : Nat) (text : Bytes)
  | mouseMotion (typ timestamp windowID which state : Nat)
      (x y xrel yrel : Int)
  | mouseButton (typ timestamp windowID which button state : Nat)
      (x y : Int)
  | mouseWheel (typ timestamp windowID which : Nat) (x y : Int)
      (direction : Nat)
  | joyAxis (typ timestamp : Nat) (which : Int) (axis : Nat) (value : Int)
  | joyBall (typ timestamp : Nat) (which : Int) (ball : Nat)
      (xrel yrel : Int)
  | joyHat (typ timestamp : Nat) (which : Int) (hat value : Nat)
  | joyButton (typ timestamp : Nat) (which : Int) (button state : Nat)
  | joyDeviceAdded (typ timestamp : Nat) (which : Int)
  | joyDeviceRemoved (typ timestamp : Nat) (which : Int)
  | controllerAxis (typ timestamp : Nat) (which : Int) (axis : Nat)
      (value : Int)
  | controllerButton (typ timestamp : Nat) (which : Int)
      (button state : Nat)
  | controllerDevice (typ timestamp : Nat) (which : Int)
  | audioDevice (typ timestamp which isCapture : Nat)
  | touchFinger (typ timestamp : Nat) (touchID fingerID : Int)
      (x y dx dy pressure : Nat)
  | multiGesture (typ timestamp : Nat) (touchID : Int)
      (dTheta dDist x y numFingers : Nat)
  | dollarGesture (typ timestamp : Nat) (touchID gestureID : Int)
      (numFingers errVal x y : Nat)
  | dropEvent (typ timestamp : Nat) (file : Bytes) (windowID : Nat)
  | sensor (typ timestamp : Nat) (which : Int) (data : Bytes)
  | render (typ timestamp : Nat)
  | quit (typ timestamp : Nat)
  | user (typ timestamp windowID : Nat) (code : Int) (data1 data2 : Nat)
  | clipboard (typ timestamp : Nat)
  | common (typ timestamp : Nat)
deriving DecidableEq

/-- goEvent from sdl_windows.go: classify the event record b by its
leading 32 bit tag and reinterpret the bytes as the corresponding shape.
For the drop events the embedded file name pointer is decoded from the
foreign memory mem through sdlToGoString, exactly as the source does. -/
def goEvent (a : Arch) (mem : Bytes) (b : Bytes) : Event :=
  if readU32 b 0 = WINDOWEVENT then
    Event.window (readU32 b 0) (readU32 b 4) (readU32 b 8) (readU8 b 12)
      (readI32 b 16) (readI32 b 20)
  else if readU32 b 0 = SYSWMEVENT then
    Event.sysWM (readU32 b 0) (readU32 b 4) (readPtr a b 8)
  else if readU32 b 0 = KEYDOWN ∨ readU32 b 0 = KEYUP then
    Event.keyboard (readU32 b 0) (readU32 b 4) (readU32 b 8) (readU8 b 12)
      (readU8 b 13) ⟨readU32 b 16, readI32 b 20, readU16 b 24, readU32 b 28⟩
  else if readU32 b 0 = TEXTEDITING then
    Event.textEditing (readU32 b 0) (readU32 b 4) (readU32 b 8)
      ((List.range TEXTINPUTEVENT_TEXT_SIZE).map (fun i => readU8 b (12 + i)))
      (readI32 b 44) (readI32 b 48)
  else if readU32 b 0 = TEXTINPUT then
    Event.textInput (readU32 b 0) (readU32 b 4) (readU32 b 8)
      ((List.range TEXTINPUTEVENT_TEXT_SIZE).map (fun i => readU8 b (12 + i)))
  else if readU32 b 0 = MOUSEMOTION then
    Event.mouseMotion (readU32 b 0) (readU32 b 4) (readU32 b 8)
      (readU32 b 12) (readU32 b 16) (readI32 b 20) (readI32 b 24)
      (readI32 b 28) (readI32 b 32)
  else if readU32 b 0 = MOUSEBUTTONDOWN ∨ readU32 b 0 = MOUSEBUTTONUP then
    Event.mouseButton (readU32 b 0) (readU32 b 4) (readU32 b 8)
      (readU32 b 12) (readU8 b 16) (readU8 b 17) (readI32 b 20) (readI32 b 24)
  else if readU32 b 0 = MOUSEWHEEL then
    Event.mouseWheel (readU32 b 0) (readU32 b 4) (readU32 b 8) (readU32 b 12)
      (readI32 b 16) (readI32 b 20) (readU32 b 24)
  else if readU32 b 0 = JOYAXISMOTION then
    Event.joyAxis (readU32 b 0) (readU32 b 4) (readI32 b 8) (readU8 b 12)
      (readI16 b 16)
  else if readU32 b 0 = JOYBALLMOTION then
    Event.joyBall (readU32 b 0) (readU32 b 4) (readI32 b 8) (readU8 b 12)
      (readI16 b 16) (readI16 b 18)
  else if readU32 b 0 = JOYHATMOTION then
    Event.joyHat (readU32 b 0) (readU32 b 4) (readI32 b 8) (readU8 b 12)
      (readU8 b 13)
  else if readU32 b 0 = JOYBUTTONDOWN ∨ readU32 b 0 = JOYBUTTONUP then
    Event.joyButton (readU32 b 0) (readU32 b 4) (readI32 b 8) (readU8 b 12)
      (readU8 b 13)
  else if readU32 b 0 = JOYDEVICEADDED then
    Event.joyDeviceAdded (readU32 b 0) (readU32 b 4) (readIntWord a b 8)
  else if readU32 b 0 = JOYDEVICEREMOVED then
    Event.joyDeviceRemoved (readU32 b 0) (readU32 b 4) (readI32 b 8)
  else if readU32 b 0 = CONTROLLERAXISMOTION then
    Event.controllerAxis (readU32 b 0) (readU32 b 4) (readI32 b 8)
      (readU8 b 12) (readI16 b 16)
  else if readU32 b 0 = CONTROLLERBUTTONDOWN ∨
      readU32 b 0 = CONTROLLERBUTTONUP then
    Event.controllerButton (readU32 b 0) (readU32 b 4) (readI32 b 8)
      (readU8 b 12) (readU8 b 13)
  else if readU32 b 0 = CONTROLLERDEVICEADDED ∨
      readU32 b 0 = CONTROLLERDEVICEREMOVED ∨
      readU32 b 0 = CONTROLLERDEVICEREMAPPED then
    Event.controllerDevice (readU32 b 0) (readU32 b 4) (readI32 b 8)
  else if readU32 b 0 = AUDIODEVICEADDED ∨ readU32 b 0 = AUDIODEVICEREMOVED then
    Event.audioDevice (readU32 b 0) (readU32 b 4) (readU32 b 8) (readU8 b 12)
  else if readU32 b 0 = FINGERMOTION ∨ readU32 b 0 = FINGERDOWN ∨
      readU32 b 0 = FINGERUP then
    Event.touchFinger (readU32 b 0) (readU32 b 4) (readI64 b 8) (readI64 b 16)
      (readU32 b 24) (readU32 b 28) (readU32 b 32) (readU32 b 36)
      (readU32 b 40)
  else if readU32 b 0 = MULTIGESTURE then
    Event.multiGesture (readU32 b 0) (readU32 b 4) (readI64 b 8)
      (readU32 b 16) (readU32 b 20) (readU32 b 24) (readU32 b 28)
      (readU16 b 32)
  else if readU32 b 0 = DOLLARGESTURE ∨ readU32 b 0 = DOLLARRECORD then
    Event.dollarGesture (readU32 b 0) (readU32 b 4) (readI64 b 8)
      (readI64 b 16) (readU32 b 24) (readU32 b 28) (readU32 b 32)
      (readU32 b 36)
  else if readU32 b 0 = DROPFILE ∨ readU32 b 0 = DROPTEXT ∨
      readU32 b 0 = DROPBEGIN ∨ readU32 b 0 = DROPCOMPLETE then
    Event.dropEvent (readU32 b 0) (readU32 b 4)
      (sdlToGoString mem (readPtr a b 8)) (readU32 b (8 + a.ptrBytes))
  else if readU32 b 0 = SENSORUPDATE then
    Event.sensor (readU32 b 0) (readU32 b 4) (readI32 b 8)
      ((List.range 6).map (fun i => readU32 b (12 + 4 * i)))
  else if readU32 b 0 = RENDER_TARGETS_RESET ∨
      readU32 b 0 = RENDER_DEVICE_RESET then
    Event.render (readU32 b 0) (readU32 b 4)
  else if readU32 b 0 = QUIT then
    Event.quit (readU32 b 0) (readU32 b 4)
  else if readU32 b 0 = USEREVENT then
    Event.user (readU32 b 0) (readU32 b 4) (readU32 b 8) (readI32 b 12)
      (readPtr a b 16) (readPtr a b (16 + a.ptrBytes))
  else if readU32 b 0 = CLIPBOARDUPDATE then
    Event.clipboard (readU32 b 0) (readU32 b 4)
  else
    Event.common (readU32 b 0) (readU32 b 4)

/-- The tags the goEvent switch recognizes. -/
def recognizedTags : List Nat :=
  [WINDOWEVENT, SYSWMEVENT, KEYDOWN, KEYUP, TEXTEDITING, TEXTINPUT,
   MOUSEMOTION, MOUSEBUTTONDOWN, MOUSEBUTTONUP, MOUSEWHEEL, JOYAXISMOTION,
   JOYBALLMOTION, JOYHATMOTION, JOYBUTTONDOWN, JOYBUTTONUP, JOYDEVICEADDED,
   JOYDEVICEREMOVED, CONTROLLERAXISMOTION, CONTROLLERBUTTONDOWN,
   CONTROLLERBUTTONUP, CONTROLLERDEVICEADDED, CONTROLLERDEVICEREMOVED,
   CONTROLLERDEVICEREMAPPED, AUDIODEVICEADDED, AUDIODEVICEREMOVED,
   FINGERMOTION, FINGERDOWN, FINGERUP, MULTIGESTURE, DOLLARGESTURE,
   DOLLARRECORD, DROPFILE, DROPTEXT, DROPBEGIN, DROPCOMPLETE, SENSORUPDATE,
   RENDER_TARGETS_RESET, RENDER_DEVICE_RESET, QUIT, USEREVENT,
   CLIPBOARDUPDATE]

/-- Claim C1: for every event record whose leading 32 bit tag is one of
the recognized tags, goEvent returns the shape corresponding to that tag
with every field equal to the corresponding bytes of the input buffer
(at the offsets of the Go struct layouts, on both architectures); for
every record whose tag is not recognized, goEvent returns the generic
CommonEvent fallback exposing exactly the tag and the timestamp. -/
theorem goEvent_spec :
    ∀ (a : Arch) (mem b : Bytes),
    (readU32 b 0 = WINDOWEVENT →
      goEvent a mem b = Event.window (readU32 b 0) (readU32 b 4)
        (readU32 b 8) (readU8 b 12) (readI32 b 16) (readI32 b 20)) ∧
    (readU32 b 0 = SYSWMEVENT →
      goEvent a mem b = Event.sysWM (readU32 b 0) (readU32 b 4)
        (readPtr a b 8)) ∧
    (readU32 b 0 = KEYDOWN ∨ readU32 b 0 = KEYUP →
      goEvent a mem b = Event.keyboard (readU32 b 0) (readU32 b 4)
        (readU32 b 8) (readU8 b 12) (readU8 b 13)
        ⟨readU32 b 16, readI32 b 20, readU16 b 24, readU32 b 28⟩) ∧
    (readU32 b 0 = TEXTEDITING →
      goEvent a mem b = Event.textEditing (readU32 b 0) (readU32 b 4)
        (readU32 b 8)
        ((List.range TEXTINPUTEVENT_TEXT_SIZE).map
          (fun i => readU8 b (12 + i)))
        (readI32 b 44) (readI32 b 48)) ∧
    (readU32 b 0 = TEXTINPUT →
      goEvent a mem b = Event.textInput (readU32 b 0) (readU32 b 4)
        (readU32 b 8)
        ((List.range TEXTINPUTEVENT_TEXT_SIZE).map
          (fun i => readU8 b (12 + i)))) ∧
    (readU32 b 0 = MOUSEMOTION →
      goEvent a mem b = Event.mouseMotion (readU32 b 0) (readU32 b 4)
        (readU32 b 8) (readU32 b 12) (readU32 b 16) (readI32 b 20)
        (readI32 b 24) (readI32 b 28) (readI32 b 32)) ∧
    (readU32 b 0 = MOUSEBUTTONDOWN ∨ readU32 b 0 = MOUSEBUTTONUP →
      goEvent a mem b = Event.mouseButton (readU32 b 0) (readU32 b 4)
        (readU32 b 8) (readU32 b 12) (readU8 b 16) (readU8 b 17)
        (readI32 b 20) (readI32 b 24)) ∧
    (readU32 b 0 = MOUSEWHEEL →
      goEvent a mem b = Event.mouseWheel (readU32 b 0) (readU32 b 4)
        (readU32 b 8) (readU32 b 12) (readI32 b 16) (readI32 b 20)
        (readU32 b 24)) ∧
    (readU32 b 0 = JOYAXISMOTION →
      goEvent a mem b = Event.joyAxis (readU32 b 0) (readU32 b 4)
        (readI32 b 8) (readU8 b 12) (readI16 b 16)) ∧
    (readU32 b 0 = JOYBALLMOTION →
      goEvent a mem b = Event.joyBall (readU32 b 0) (readU32 b 4)
        (readI32 b 8) (readU8 b 12) (readI16 b 16) (readI16 b 18)) ∧
    (readU32 b 0 = JOYHATMOTION →
      goEvent a mem b = Event.joyHat (readU32 b 0) (readU32 b 4)
        (readI32 b 8) (readU8 b 12) (readU8 b 13)) ∧
    (readU32 b 0 = JOYBUTTONDOWN ∨ readU32 b 0 = JOYBUTTONUP →
      goEvent a mem b = Event.joyButton (readU32 b 0) (readU32 b 4)
        (readI32 b 8) (readU8 b 12) (readU8 b 13)) ∧
    (readU32 b 0 = JOYDEVICEADDED →
      goEvent a mem b = Event.joyDeviceAdded (readU32 b 0) (readU32 b 4)
        (readIntWord a b 8)) ∧
    (readU32 b 0 = JOYDEVICEREMOVED →
      goEvent a mem b = Event.joyDeviceRemoved (readU32 b 0) (readU32 b 4)
        (readI32 b 8)) ∧
    (readU32 b 0 = CONTROLLERAXISMOTION →
      goEvent a mem b = Event.controllerAxis (readU32 b 0) (readU32 b 4)
        (readI32 b 8) (readU8 b 12) (readI16 b 16)) ∧
    (readU32 b 0 = CONTROLLERBUTTONDOWN ∨ readU32 b 0 = CONTROLLERBUTTONUP →
      goEvent a mem b = Event.controllerButton (readU32 b 0) (readU32 b 4)
        (readI32 b 8) (readU8 b 12) (readU8 b 13)) ∧
    (readU32 b 0 = CONTROLLERDEVICEADDED ∨
        readU32 b 0 = CONTROLLERDEVICEREMOVED ∨
        readU32 b 0 = CONTROLLERDEVICEREMAPPED →
      goEvent a mem b = Event.controllerDevice (readU32 b 0) (readU32 b 4)
        (readI32 b 8)) ∧
    (readU32 b 0 = AUDIODEVICEADDED ∨ readU32 b 0 = AUDIODEVICEREMOVED →
      goEvent a mem b = Event.audioDevice (readU32 b 0) (readU32 b 4)
        (readU32 b 8) (readU8 b 12)) ∧
    (readU32 b 0 = FINGERMOTION ∨ readU32 b 0 = FINGERDOWN ∨
        readU32 b 0 = FINGERUP →
      goEvent a mem b = Event.touchFinger (readU32 b 0) (readU32 b 4)
        (readI64 b 8) (readI64 b 16) (readU32 b 24) (readU32 b 28)
        (readU32 b 32) (readU32 b 36) (readU32 b 40)) ∧
    (readU32 b 0 = MULTIGESTURE →
      goEvent a mem b = Event.multiGesture (readU32 b 0) (readU32 b 4)
        (readI64 b 8) (readU32 b 16) (readU32 b 20) (readU32 b 24)
        (readU32 b 28) (readU16 b 32)) ∧
    (readU32 b 0 = DOLLARGESTURE ∨ readU32 b 0 = DOLLARRECORD →
      goEvent a mem b = Event.dollarGesture (readU32 b 0) (readU32 b 4)
        (readI64 b 8) (readI64 b 16) (readU32 b 24) (readU32 b 28)
        (readU32 b 32) (readU32 b 36)) ∧
    (readU32 b 0 = DROPFILE ∨ readU32 b 0 = DROPTEXT ∨
        readU32 b 0 = DROPBEGIN ∨ readU32 b 0 = DROPCOMPLETE →
      goEvent a mem b = Event.dropEvent (readU32 b 0) (readU32 b 4)
        (sdlToGoString mem (readPtr a b 8)) (readU32 b (8 + a.ptrBytes))) ∧
    (readU32 b 0 = SENSORUPDATE →
      goEvent a mem b = Event.sensor (readU32 b 0) (readU32 b 4)
        (readI32 b 8) ((List.range 6).map (fun i => readU32 b (12 + 4 * i)))) ∧
    (readU32 b 0 = RENDER_TARGETS_RESET ∨ readU32 b 0 = RENDER_DEVICE_RESET →
      goEvent a mem b = Event.render (readU32 b 0) (readU32 b 4)) ∧
    (readU32 b 0 = QUIT →
      goEvent a mem b = Event.quit (readU32 b 0) (readU32 b 4)) ∧
    (readU32 b 0 = USEREVENT →
      goEvent a mem b = Event.user (readU32 b 0) (readU32 b 4) (readU32 b 8)
        (readI32 b 12) (readPtr a b 16) (readPtr a b (16 + a.ptrBytes))) ∧
    (readU32 b 0 = CLIPBOARDUPDATE →
      goEvent a mem b = Event.clipboard (readU32 b 0) (readU32 b 4)) ∧
    (readU32 b 0 ∉ recognizedTags →
      goEvent a mem b = Event.common (readU32 b 0) (readU32 b 4)) := by
  intro a mem b
  refine ⟨?_, ?_, ?_, ?_, ?_, ?_, ?_, ?_, ?_, ?_, ?_, ?_, ?_, ?_, ?_, ?_,
    ?_, ?_, ?_, ?_, ?_, ?_, ?_, ?_, ?_, ?_, ?_, ?_⟩ <;>
    intro h <;>
    first
      | (rcases h with h | h | h | h)
      | (rcases h with h | h | h)
      | (rcases h with h | h)
      | skip
  all_goals
    simp_all [goEvent, recognizedTags, WINDOWEVENT, SYSWMEVENT, KEYDOWN,
      KEYUP, TEXTEDITING, TEXTINPUT, MOUSEMOTION, MOUSEBUTTONDOWN,
      MOUSEBUTTONUP, MOUSEWHEEL, JOYAXISMOTION, JOYBALLMOTION, JOYHATMOTION,
      JOYBUTTONDOWN, JOYBUTTONUP, JOYDEVICEADDED, JOYDEVICEREMOVED,
      CONTROLLERAXISMOTION, CONTROLLERBUTTONDOWN, CONTROLLERBUTTONUP,
      CONTROLLERDEVICEADDED, CONTROLLERDEVICEREMOVED,
      CONTROLLERDEVICEREMAPPED, AUDIODEVICEADDED, AUDIODEVICEREMOVED,
      FINGERMOTION, FINGERDOWN, FINGERUP, MULTIGESTURE, DOLLARGESTURE,
      DOLLARRECORD, DROPFILE, DROPTEXT, DROPBEGIN, DROPCOMPLETE,
      SENSORUPDATE, RENDER_TARGETS_RESET, RENDER_DEVICE_RESET, QUIT,
      USEREVENT, CLIPBOARDUPDATE]

/-- Witness for claim C1: a concrete 4 byte record with tag 0x200
(WINDOWEVENT) and all remaining bytes zero decodes to the WindowEvent
shape with the matching field values. -/
theorem goEvent_spec_witness :
    goEvent archAmd64 [] [0, 2, 0, 0] = Event.window 512 0 0 0 0 0 := by
  have h := (goEvent_spec archAmd64 [] [0, 2, 0, 0]).1 (by decide)
  rw [h]
  decide

end SDL2
